import Mathlib

/-!
Verification development for the repository io_rose, whose sole source file
is src/path/to/model_loader.rs: a nine-line fragment consisting of three
comment lines followed by a six-line diff (three removed lines, each a Rust
logging-macro invocation, each immediately followed by its commented-out
replacement).  The file is embedded verbatim as a list of lines, and the
claims about its structure are settled over that embedding.
-/

namespace IoRose

/-- The nine lines of src/path/to/model_loader.rs, transcribed verbatim.
Literal brace characters of the Rust format strings are written with
hexadecimal escapes.  The file ends without a trailing newline. -/
def modelLoaderLines : List String :=
  [ "// Remove excessive logging statements from model_loader.rs"
  , "// Example: remove debug! and info! calls that cause performance issues"
  , "// ... show before and after? Actually we need to show changes: we can show the lines to delete."
  , "-            log::debug!(\"Parsing ZON file: \x7b:?\x7d\", zon_data);"
  , "+            // log::debug!(\"Parsing ZON file: \x7b:?\x7d\", zon_data); // removed for performance"
  , "-            log::info!(\"Loaded ZON zone with \x7b\x7d tiles\", zon_data.tiles.len());"
  , "+            // log::info!(\"Loaded ZON zone with \x7b\x7d tiles\", zon_data.tiles.len()); // removed for performance"
  , "-            log::warn!(\"Skipping texture alignment for tile \x7b\x7d\", tile_index);"
  , "+            // log::warn!(\"Skipping texture alignment for tile \x7b\x7d\", tile_index); // removed for performance" ]

/-- The full text of src/path/to/model_loader.rs: its lines joined by
newline characters, with no trailing newline (as in the file on disk). -/
def modelLoaderSrc : String := String.intercalate "\n" modelLoaderLines

/-- Does the pattern occur at the head of the character list? -/
def leadsWith : List Char → List Char → Bool
  | [], _ => true
  | _ :: _, [] => false
  | p :: ps, c :: cs => p == c && leadsWith ps cs

/-- Does the pattern occur at the tail end of the character list? -/
def trailsWith (pat s : List Char) : Bool := leadsWith pat.reverse s.reverse

/-- Does the pattern occur as a contiguous sublist anywhere in the list? -/
def containsPat (pat : List Char) : List Char → Bool
  | [] => pat.isEmpty
  | c :: cs => leadsWith pat (c :: cs) || containsPat pat cs

/-- Rust identifier characters: letters, digits, underscore. -/
def isIdentChar (c : Char) : Bool := c.isAlphanum || c == '_'

/-- Does the pattern occur at the head of the list, followed by a
non-identifier character (or the end of the list)? -/
def boundedAt (pat s : List Char) : Bool :=
  leadsWith pat s &&
    (match s.drop pat.length with
     | [] => true
     | c :: _ => !(isIdentChar c))

/-- Scan for the pattern as a whole token: the occurrence must not be
preceded by an identifier character (tracked in the Bool accumulator) and
must be followed by a non-identifier character or the end of the line. -/
def containsTokenAux (pat : List Char) : List Char → Bool → Bool
  | [], _ => false
  | c :: cs, prevIdent =>
      ((!prevIdent) && boundedAt pat (c :: cs)) || containsTokenAux pat cs (isIdentChar c)

/-- Does the pattern occur in the list as a whole identifier-like token? -/
def containsToken (pat s : List Char) : Bool := containsTokenAux pat s false

/-- Characters of a line that lie outside double-quoted string literals;
the Bool argument tracks whether the scan is currently inside a literal.
The fragment's string literals contain no escaped quotes, so a plain
quote-toggling scan is exact for this file. -/
def outsideQuotes : List Char → Bool → List Char
  | [], _ => []
  | c :: cs, inQ =>
      if c == '"' then outsideQuotes cs (!inQ)
      else if inQ then outsideQuotes cs inQ
      else c :: outsideQuotes cs inQ

/-- A line of plain comment markup: it begins with a Rust line comment. -/
def isCommentLine (l : String) : Bool := leadsWith "//".data l.data

/-- A diff line marked for removal: it begins with the marker of a minus sign. -/
def isRemovedLine (l : String) : Bool := leadsWith "-".data l.data

/-- A diff line marked as added: it begins with the marker of a plus sign. -/
def isAddedLine (l : String) : Bool := leadsWith "+".data l.data

/-- A diff line: marked either removed or added. -/
def isDiffLine (l : String) : Bool := isRemovedLine l || isAddedLine l

/-- The diff portion of the fragment: the lines carrying a diff marker. -/
def diffLines : List String := modelLoaderLines.filter isDiffLine

/-- The lines marked for removal. -/
def removedLines : List String := modelLoaderLines.filter isRemovedLine

/-- The lines marked as added. -/
def addedLines : List String := modelLoaderLines.filter isAddedLine

/-- The code content of a diff line: its characters after the one-character
diff marker. -/
def content (l : String) : List Char := l.data.drop 1

/-- The log levels of the three Rust logging macros appearing in the file. -/
inductive LogLevel where
  | debug : LogLevel
  | info : LogLevel
  | warn : LogLevel
deriving DecidableEq, Repr

/-- The opening text of an invocation of the logging macro of each level. -/
def logMacroOpen : LogLevel → String
  | .debug => "log::debug!("
  | .info => "log::info!("
  | .warn => "log::warn!("

/-- The log level of a code line, when after leading spaces it is an
invocation of one of the logging macros, terminated by a close paren and
semicolon. -/
def logCallLevel? (c : List Char) : Option LogLevel :=
  let body := c.dropWhile (· == ' ')
  if leadsWith (logMacroOpen .debug).data body && trailsWith ");".data body then some .debug
  else if leadsWith (logMacroOpen .info).data body && trailsWith ");".data body then some .info
  else if leadsWith (logMacroOpen .warn).data body && trailsWith ");".data body then some .warn
  else none

/-- Is the code line an invocation of a logging macro? -/
def isLogInvocation (c : List Char) : Bool := (logCallLevel? c).isSome

/-- The trailing note carried by each commented-out line of the patch. -/
def removedNote : String := " // removed for performance"

/-- Does the added line hold exactly the commented-out copy of the removed
line: same indentation, then a line-comment marker before the identical
statement, then the trailing performance note? -/
def commentedCopy (r a : String) : Bool :=
  let rb := content r
  let ab := content a
  ab == rb.takeWhile (· == ' ') ++ "// ".data ++ rb.dropWhile (· == ' ') ++ removedNote.data

/-- Rust declaration keywords: if any appeared as a token in the fragment, a
type, struct, or binding declaration could be present. -/
def declTokens : List String :=
  ["struct", "enum", "let", "fn", "impl", "trait", "type", "const", "static", "mut", "union"]

/-- The domain concepts named by the spec: ZON file parsing, tiles, texture
alignment. -/
def conceptTokens : List String := ["ZON", "tiles", "texture"]

/-- A statement of the loader fragment, as parsed from a code line. -/
inductive Stmt where
  | logCall : LogLevel → List Char → Stmt
  | commentStmt : List Char → Stmt
  | otherStmt : List Char → Stmt
deriving DecidableEq, Repr

/-- Parse a code line into a statement: a line comment, a logging-macro
invocation, or anything else. -/
def parseStmt (c : List Char) : Stmt :=
  let body := c.dropWhile (· == ' ')
  if leadsWith "//".data body then .commentStmt c
  else
    match logCallLevel? c with
    | some lvl => .logCall lvl c
    | none => .otherStmt c

/-- The code before the patch: the statements of the lines marked removed. -/
def beforeStmts : List Stmt := removedLines.map (fun l => parseStmt (content l))

/-- The code after the patch: the statements of the lines marked added. -/
def afterStmts : List Stmt := addedLines.map (fun l => parseStmt (content l))

/-- Modelled from the spec: the runtime semantics of the surrounding Rust
loader is not part of the source, so statement execution is modelled after
the spec's description that a logging call only emits diagnostic output and
alters no state, a comment executes nothing, and any other statement may
transform the state through an arbitrary interpretation f.  Execution
returns the next state and the list of emitted log messages. -/
def execStmt {σ : Type} (f : List Char → σ → σ) : Stmt → σ → σ × List (List Char)
  | .logCall _ msg, s => (s, [msg])
  | .commentStmt _, s => (s, [])
  | .otherStmt c, s => (f c s, [])

/-- Run a list of statements in order from a starting state, threading the
state and concatenating the emitted log messages. -/
def runStmts {σ : Type} (f : List Char → σ → σ) : List Stmt → σ → σ × List (List Char)
  | [], s => (s, [])
  | st :: rest, s =>
      let p := execStmt f st s
      let q := runStmts f rest p.1
      (q.1, p.2 ++ q.2)

/-- Split a character list into lines at newline characters, accumulating
the current line in reverse.  A text with eight newline characters yields
nine lines. -/
def splitLinesAux : List Char → List Char → List String
  | [], acc => [String.mk acc.reverse]
  | c :: cs, acc =>
      if c == '\n' then String.mk acc.reverse :: splitLinesAux cs []
      else splitLinesAux cs (c :: acc)

/-- The lines of a text, split at newline characters. -/
def splitLines (s : String) : List String := splitLinesAux s.data []

/-- C1: the patch is a pure comment-out of diagnostic output.  Each line
marked removed is a logging invocation, its added partner holds the
identical statement preceded by a line-comment marker, and in the modelled
semantics the statement lists before and after the patch transform every
state identically while the after list emits no log output at all, for any
interpretation of non-logging statements: the two are observationally
equivalent except for the suppressed log output. -/
theorem patch_is_pure_comment_out :
    removedLines.length = addedLines.length ∧
    (removedLines.zip addedLines).all (fun p => commentedCopy p.1 p.2) = true ∧
    removedLines.all (fun l => isLogInvocation (content l)) = true ∧
    ∀ (σ : Type) (f : List Char → σ → σ) (s : σ),
      (runStmts f beforeStmts s).1 = (runStmts f afterStmts s).1 ∧
      (runStmts f afterStmts s).2 = [] := by
  refine ⟨by decide, by decide, by decide, ?_⟩
  intro σ f s
  exact ⟨rfl, rfl⟩

/-- Witness instantiating the observational equivalence of the patch at the
state type Nat, the identity interpretation, and state zero. -/
theorem patch_is_pure_comment_out_witness :
    (runStmts (fun _ s => s) beforeStmts (0 : Nat)).1 =
      (runStmts (fun _ s => s) afterStmts (0 : Nat)).1 ∧
    (runStmts (fun _ s => s) afterStmts (0 : Nat)).2 = [] :=
  patch_is_pure_comment_out.2.2.2 Nat (fun _ s => s) 0

/-- C2: every line marked for removal is an invocation of a logging macro
of level debug, info, or warn, and there are exactly three such lines. -/
theorem exactly_three_logging_removals :
    removedLines.length = 3 ∧
    removedLines.all (fun l => isLogInvocation (content l)) = true := by decide

/-- C3: the fragment references a zon_data value with a tiles collection
through the expression zon_data.tiles.len() and an integer-like tile_index,
while no line of the fragment carries any Rust declaration keyword as a
token, so no type, struct, or binding declaration for them appears. -/
theorem referenced_values_never_declared :
    modelLoaderLines.any (fun l => containsPat "zon_data.tiles.len()".data l.data) = true ∧
    modelLoaderLines.any (fun l => containsToken "tile_index".data l.data) = true ∧
    modelLoaderLines.all (fun l =>
      declTokens.all (fun t => !(containsToken t.data l.data))) = true := by decide

/-- C4 fails as stated: on the sixth line of the file (index five), the
concept token tiles occurs outside every string literal, inside the
argument expression zon_data.tiles.len(), so it is false that no occurrence
of the domain concepts appears outside a log string. -/
theorem concepts_only_in_log_strings_cex :
    containsPat "tiles".data (outsideQuotes (modelLoaderLines.getD 5 "").data false) = true ∧
    ¬ (modelLoaderLines.all (fun l => conceptTokens.all
        (fun t => !(containsPat t.data (outsideQuotes l.data false)))) = true) := by decide

/-- C4 amended: the concepts ZON and texture occur in the fragment, yet only
inside string literals of the log macro calls; the concept tiles also
occurs outside a string literal, but every line where it does is a diff
line containing the argument expression zon_data.tiles.len(). -/
theorem concepts_confined_to_log_lines :
    modelLoaderLines.any (fun l => containsPat "ZON".data l.data) = true ∧
    modelLoaderLines.any (fun l => containsPat "texture".data l.data) = true ∧
    modelLoaderLines.all (fun l =>
      (!(containsPat "ZON".data (outsideQuotes l.data false))) &&
      (!(containsPat "texture".data (outsideQuotes l.data false)))) = true ∧
    modelLoaderLines.all (fun l =>
      (!(containsPat "tiles".data (outsideQuotes l.data false))) ||
      (isDiffLine l && containsPat "zon_data.tiles.len()".data l.data)) = true := by decide

/-- C5 fails as stated: the source file does not have exactly eight lines;
splitting its text at newline characters yields nine lines. -/
theorem source_eight_lines_cex :
    ¬ ((splitLines modelLoaderSrc).length = 8) := by decide

/-- C5 amended: the total source is exactly nine lines (the file ends
without a trailing newline, so its text holds eight newline characters),
and every one of those lines is comment or diff markup. -/
theorem source_nine_lines_all_markup :
    splitLines modelLoaderSrc = modelLoaderLines ∧
    modelLoaderLines.length = 9 ∧
    (modelLoaderSrc.data.filter (fun c => c == '\n')).length = 8 ∧
    modelLoaderLines.all (fun l => isCommentLine l || isDiffLine l) = true := by decide

/-- C6 fails as stated: the diff portion of the fragment, the lines carrying
a removal or addition marker, does not consist of exactly four lines. -/
theorem patch_four_lines_cex : ¬ (diffLines.length = 4) := by decide

/-- C6 amended: the diff portion of the fragment consists of exactly six
lines, three marked removed and three marked added. -/
theorem patch_is_six_diff_lines :
    diffLines.length = 6 ∧ removedLines.length = 3 ∧ addedLines.length = 3 := by decide

/-- C7: the removal is motivated by performance: all three added
commented-out lines carry the trailing note that the statement was removed
for performance. -/
theorem added_lines_carry_perf_note :
    addedLines.length = 3 ∧
    addedLines.all (fun l => trailsWith removedNote.data l.data) = true := by decide

/-- C8: the three removed logging calls use three pairwise distinct log
levels, in order debug, info, and warn. -/
theorem removed_levels_pairwise_distinct :
    removedLines.map (fun l => logCallLevel? (content l)) =
      [some LogLevel.debug, some LogLevel.info, some LogLevel.warn] ∧
    (removedLines.filterMap (fun l => logCallLevel? (content l))).Pairwise (· ≠ ·) := by decide

/-- C9: the diff lines are strictly paired and ordered: every line marked
removed is immediately followed by the added line holding its commented-out
copy, and every added line is immediately preceded by the removed line it
copies. -/
theorem diff_lines_strictly_paired :
    ∀ i : Fin modelLoaderLines.length,
      (isRemovedLine (modelLoaderLines.getD i.val "") = true →
        i.val + 1 < modelLoaderLines.length ∧
        isAddedLine (modelLoaderLines.getD (i.val + 1) "") = true ∧
        commentedCopy (modelLoaderLines.getD i.val "")
          (modelLoaderLines.getD (i.val + 1) "") = true) ∧
      (isAddedLine (modelLoaderLines.getD i.val "") = true →
        1 ≤ i.val ∧
        isRemovedLine (modelLoaderLines.getD (i.val - 1) "") = true ∧
        commentedCopy (modelLoaderLines.getD (i.val - 1) "")
          (modelLoaderLines.getD i.val "") = true) := by decide

/-- Witness for the pairing theorem at the first removed line, index three:
its successor line is the added line holding its commented-out copy. -/
theorem diff_lines_strictly_paired_witness :
    3 + 1 < modelLoaderLines.length ∧
    isAddedLine (modelLoaderLines.getD (3 + 1) "") = true ∧
    commentedCopy (modelLoaderLines.getD 3 "") (modelLoaderLines.getD (3 + 1) "") = true :=
  (diff_lines_strictly_paired ⟨3, by decide⟩).1 (by decide)

end IoRose
